import Mathlib

/-!
Shallow embedding of the angryMiaoBatteryInfo plugin core:
the HID battery reader `src/hidReader.js` (device location, activation
handshake, bounded retry) and the polling scheduler / status dedup logic of
`src/plugin.js` (statusesEqual, pollAndUpdate, ensurePolling,
getPollIntervalMs).  Effectful operations (HID enumeration, open, feature
report write/read, close) are abstracted as per-attempt outcome records; the
pure control flow is translated statement by statement from the JavaScript
source.
-/

namespace AMBattery

deriving instance DecidableEq for Except

/-! ## JavaScript number model

JS numbers used by the config paths are modelled as rationals plus a marker
for non-finite values (NaN); the config fields may also be absent
(`undefined`), modelled with `Option`. -/

inductive JSNum where
  | nan : JSNum
  | num : ℚ → JSNum
deriving DecidableEq

/-- JS `Math.trunc`: round toward zero.  On a rational in reduced form this
is the truncating division of the numerator by the (positive)
denominator. -/
def jsTrunc (q : ℚ) : Int :=
  Int.tdiv q.num q.den

/-- JS `Math.round`: floor of x + 1/2 (rounds halves up).  Since
`q + 1/2 = (2*num + den) / (2*den)` with a positive denominator, its floor
is the flooring integer division. -/
def jsRound (q : ℚ) : Int :=
  Int.fdiv (2 * q.num + q.den) (2 * q.den)

/-- Multiplication on rationals, written out through `Rat.divInt` so that it
evaluates by kernel reduction; it agrees with `*` on `ℚ`. -/
def jsMul (a b : ℚ) : ℚ :=
  Rat.divInt (a.num * b.num) (a.den * b.den)

/-- JS `String.prototype.trim` (character-list implementation). -/
def jsTrim (s : String) : String :=
  ⟨((s.data.dropWhile Char.isWhitespace).reverse.dropWhile Char.isWhitespace).reverse⟩

/-- JS `String.prototype.toLowerCase` (sufficient for the ASCII paths and
config strings this program handles). -/
def jsToLower (s : String) : String :=
  ⟨s.data.map Char.toLower⟩

/-- JS `x || d` for an optional number `x`: `undefined`, `NaN` and `0` are
falsy and yield the default. -/
def jsNumOr (x : Option JSNum) (d : ℚ) : ℚ :=
  match x with
  | none => d
  | some JSNum.nan => d
  | some (JSNum.num q) => if q = 0 then d else q

/-! ## parseConfigInt (hidReader.js lines 27-51)

A raw config field is `null`/`undefined`, a number, a string, or some other
value. -/

inductive RawValue where
  | nullv : RawValue
  | num : JSNum → RawValue
  | str : String → RawValue
  | other : RawValue
deriving DecidableEq

def hexDigitVal (c : Char) : Option Nat :=
  if '0' ≤ c ∧ c ≤ '9' then some (c.toNat - 48)
  else if 'a' ≤ c ∧ c ≤ 'z' then some (c.toNat - 87)
  else if 'A' ≤ c ∧ c ≤ 'Z' then some (c.toNat - 55)
  else none

def digitVal (radix : Nat) (c : Char) : Option Nat :=
  match hexDigitVal c with
  | some v => if v < radix then some v else none
  | none => none

def takeDigits (radix : Nat) : List Char → List Nat
  | [] => []
  | c :: t =>
    match digitVal radix c with
    | some v => v :: takeDigits radix t
    | none => []

/-- JS `Number.parseInt(s, radix)`: skip whitespace, optional sign, optional
`0x` prefix when radix is 16, then the maximal run of valid digits; `NaN`
(here `none`) when no digit is consumed. -/
def parseIntJS (radix : Nat) (s : String) : Option Int :=
  let chars := (jsTrim s).data
  let signed : Int × List Char :=
    match chars with
    | '-' :: t => (-1, t)
    | '+' :: t => (1, t)
    | t => (1, t)
  let body : List Char :=
    if radix = 16 then
      match signed.2 with
      | '0' :: 'x' :: t => t
      | '0' :: 'X' :: t => t
      | t => t
    else signed.2
  let ds := takeDigits radix body
  if ds.isEmpty then none
  else some (signed.1 * Int.ofNat (ds.foldl (fun acc d => acc * radix + d) 0))

/-- hidReader.js `parseConfigInt`. -/
def parseConfigInt : RawValue → Option Int
  | RawValue.nullv => none
  | RawValue.num JSNum.nan => none
  | RawValue.num (JSNum.num q) => some (jsTrunc q)
  | RawValue.other => none
  | RawValue.str s =>
    let v := jsToLower (jsTrim s)
    if v = "" then none
    else if ("0x").data.isPrefixOf v.data then parseIntJS 16 ⟨v.data.drop 2⟩
    else if v.data.getLast? == some 'h' then parseIntJS 16 ⟨v.data.dropLast⟩
    else parseIntJS 10 v

/-! ## Hex encoding (Buffer.from(data).toString("hex")) -/

def hexDigitChar (n : Nat) : Char :=
  if n < 10 then Char.ofNat (48 + n) else Char.ofNat (87 + n)

def byteHex (b : Nat) : String :=
  ⟨[hexDigitChar ((b % 256) / 16), hexDigitChar ((b % 256) % 16)]⟩

def hexEncode (data : List Nat) : String :=
  String.join (data.map byteHex)

/-! ## Device location (hidReader.js lines 65-125) -/

/-- One enumerated HID interface.  `path` is the normalised path when the
underlying field was a non-buffer string or a buffer (already decoded);
`interface` and `interfaceNumber` mirror the two optional fields consulted by
the source. -/
structure DeviceInfo where
  vendorId : Int
  productId : Int
  path : Option String
  interface : Option Int
  interfaceNumber : Option Int
deriving DecidableEq

/-- hidReader.js `normalisePath` combined with the `if (!devicePath)` falsy
check at the call site: an absent or empty path is discarded. -/
def normalisePath : Option String → Option String
  | none => none
  | some s => if s = "" then none else some s

/-- `info.interface ?? info.interfaceNumber`. -/
def ifaceOf (info : DeviceInfo) : Option Int :=
  info.interface.or info.interfaceNumber

/-- One step of the candidate filter: exact VID/PID match with a usable
path. -/
def matchEntry (vid pid : Int) (info : DeviceInfo) : Option (DeviceInfo × String) :=
  if info.vendorId == vid && info.productId == pid then
    (normalisePath info.path).map (fun p => (info, p))
  else none

def deviceMatches (devices : List DeviceInfo) (vid pid : Int) : List (DeviceInfo × String) :=
  devices.filterMap (matchEntry vid pid)

/-- `needle` occurs as a contiguous run inside the character list. -/
def containsChars (needle : List Char) : List Char → Bool
  | [] => needle.isEmpty
  | c :: rest => needle.isPrefixOf (c :: rest) || containsChars needle rest

/-- JS `String.prototype.includes`. -/
def strContains (s sub : String) : Bool :=
  containsChars sub.data s.data

/-- hidReader.js `findDevicePath` (enumeration already performed by the
caller): filter to exact VID/PID matches with a usable path, then prefer an
interface-2 candidate, then a path containing the case-insensitive substring
"mi_02", else the first match. -/
def findDevicePath (devices : List DeviceInfo) (vid pid : Int) : Option String :=
  let ms := deviceMatches devices vid pid
  if ms.isEmpty then none
  else
    match ms.find? (fun m => ifaceOf m.1 == some 2) with
    | some m => some m.2
    | none =>
      match ms.find? (fun m => strContains (jsToLower m.2) "mi_02") with
      | some m => some m.2
      | none => ms.head?.map (fun m => m.2)

/-! ## Protocol session and retry loop (hidReader.js lines 131-218)

One read attempt performs: open, activation write, settle delay, telemetry
read, validation, clamp; the device handle is closed on every exit path
after a successful open (explicit `safeClose` calls plus the `finally`
block).  The outcome of each effectful step is supplied by an
`AttemptFault` record; `closeFails` models whether `device.close()` would
throw (swallowed by `safeClose`, so it must not influence anything). -/

def ANGRY_MIAO_REPORT_ID : Nat := 0xf7

def DEFAULT_BUFFER_LENGTH : Nat := 65

/-- The 65-byte activation feature report: all zero except byte 1 = 0xF7. -/
def ANGRY_MIAO_INIT_FEATURE : List Nat :=
  (List.replicate 65 0).set 1 0xf7

structure AttemptFault where
  openDev : Except String Unit
  sendInit : Except String Unit
  getReport : Except String (Option (List Nat))
  closeFails : Bool

inductive ReadError where
  | enumerationError : String → ReadError
  | deviceNotFound : Int → Int → ReadError
  | openError : String → ReadError
  | initWriteError : Nat → String → ReadError
  | parseError : String → ReadError
  | batteryMissing : ReadError
  | readError : Nat → String → ReadError
  | unableToRead : ReadError
deriving DecidableEq

/-- The diagnostic payload of a `ParseError`: the raw report hex-encoded, or
"null" when the report was absent. -/
def payloadHex : Option (List Nat) → String
  | none => "null"
  | some d => hexEncode d

/-- Result of one ProtocolSession attempt: the value or error, whether the
open succeeded, and how many times the handle was closed via `safeClose`. -/
structure AttemptResult where
  result : Except ReadError Nat
  opened : Bool
  closes : Nat

def exceptOk {ε α : Type} : Except ε α → Bool
  | Except.ok _ => true
  | Except.error _ => false

/-- One iteration of the retry loop body in `readBatteryPercentage`
(hidReader.js lines 151-200).  `ReadError.batteryMissing` mirrors the
`Number.isFinite` guard on `data[3]`; with byte-valued reports (length at
least 4 guaranteed by the validation) that branch is unreachable and is
therefore never produced here. -/
def attemptOnce (f : AttemptFault) (attempt : Nat) : AttemptResult :=
  match f.openDev with
  | Except.error msg => ⟨Except.error (ReadError.openError msg), false, 0⟩
  | Except.ok _ =>
    match f.sendInit with
    | Except.error msg => ⟨Except.error (ReadError.initWriteError attempt msg), true, 1⟩
    | Except.ok _ =>
      match f.getReport with
      | Except.error msg => ⟨Except.error (ReadError.readError attempt msg), true, 1⟩
      | Except.ok dataOpt =>
        match dataOpt with
        | none => ⟨Except.error (ReadError.parseError (payloadHex none)), true, 2⟩
        | some data =>
          if data.length < 4 ∨ data.headD 0 ≠ ANGRY_MIAO_REPORT_ID then
            ⟨Except.error (ReadError.parseError (payloadHex (some data))), true, 2⟩
          else
            ⟨Except.ok (min 100 (max 0 (data.getD 3 0))), true, 2⟩

/-- Final outcome of `readBatteryPercentage` together with the number of
ProtocolSession attempts actually performed. -/
structure RunResult where
  result : Except ReadError Nat
  attempts : Nat

/-- The retry loop: up to `rem` further attempts starting at index
`attempt`, keeping only the most recent failure; on exhaustion the last
error is thrown (with the source fallback message when no attempt ran). -/
def runAttempts (faults : Nat → AttemptFault) : Nat → Nat → Option ReadError → RunResult
  | 0, _, lastError => ⟨Except.error (lastError.getD ReadError.unableToRead), 0⟩
  | rem + 1, attempt, _lastError =>
    match (attemptOnce (faults attempt) attempt).result with
    | Except.ok v => ⟨Except.ok v, 1⟩
    | Except.error e =>
      let rest := runAttempts faults rem (attempt + 1) (some e)
      ⟨rest.result, rest.attempts + 1⟩

/-! ## readBatteryPercentage (hidReader.js lines 131-204) -/

/-- The fields of `BatteryConfig` consulted by `readBatteryPercentage`. -/
structure BatteryConfig where
  hidPath : Option String
  vid : RawValue
  pid : RawValue
  initDelayMs : Option JSNum
  retryCount : Option JSNum

def DEFAULT_VENDOR_ID : Int := 0x3151

def DEFAULT_PRODUCT_ID : Int := 0x5007

/-- `Math.max(1, Math.trunc(config.retryCount || 1))`. -/
def normRetryCount (c : BatteryConfig) : Int :=
  max 1 (jsTrunc (jsNumOr c.retryCount 1))

/-- `Math.max(0, Math.trunc(config.initDelayMs || 0))`. -/
def normInitDelayMs (c : BatteryConfig) : Int :=
  max 0 (jsTrunc (jsNumOr c.initDelayMs 0))

def targetVidOf (c : BatteryConfig) : Int :=
  (parseConfigInt c.vid).getD DEFAULT_VENDOR_ID

def targetPidOf (c : BatteryConfig) : Int :=
  (parseConfigInt c.pid).getD DEFAULT_PRODUCT_ID

/-- External behaviour supplied to a whole `readBatteryPercentage` call:
the enumeration outcome and the per-attempt device behaviour. -/
structure World where
  enumerate : Except String (List DeviceInfo)
  faults : Nat → AttemptFault

/-- Path resolution prefix of `readBatteryPercentage` (lines 137-148): a
non-empty trimmed `hidPath` is used directly; otherwise the device is
located, failing with an enumeration or device-not-found error. -/
def resolveTarget (w : World) (c : BatteryConfig) : Except ReadError String :=
  let trimmed := jsTrim (c.hidPath.getD "")
  if trimmed = "" then
    match w.enumerate with
    | Except.error msg => Except.error (ReadError.enumerationError msg)
    | Except.ok devices =>
      match findDevicePath devices (targetVidOf c) (targetPidOf c) with
      | none => Except.error (ReadError.deviceNotFound (targetVidOf c) (targetPidOf c))
      | some p => Except.ok p
  else Except.ok trimmed

/-- hidReader.js `readBatteryPercentage`: normalise the config, resolve the
target path, then run the bounded retry loop. -/
def readBatteryPercentage (w : World) (c : BatteryConfig) : RunResult :=
  match resolveTarget w c with
  | Except.error e => ⟨Except.error e, 0⟩
  | Except.ok _ => runAttempts w.faults (normRetryCount c).toNat 1 none

/-! ## Status type and dedup equality (plugin.js lines 523-534)

Statuses carry the same fields as the source objects: `unknown` has a
label, `value` has an integer value plus a rendered label, `error` has a
label and a detail string. -/

inductive Status where
  | unknown : String → Status
  | value : Int → String → Status
  | error : String → String → Status
deriving DecidableEq

/-- The `kind` field of a status object. -/
def Status.kind : Status → String
  | Status.unknown _ => "unknown"
  | Status.value _ _ => "value"
  | Status.error _ _ => "error"

/-- plugin.js `statusesEqual`: kinds must match; value statuses compare by
value, error statuses by label and detail; any other same-kind pair
(i.e. two unknown statuses) compares equal. -/
def statusesEqual : Status → Status → Bool
  | Status.value v _, Status.value v' _ => v == v'
  | Status.error l d, Status.error l' d' => l == l' && d == d'
  | Status.unknown _, Status.unknown _ => true
  | _, _ => false

/-! ## Polling scheduler (plugin.js lines 572-648)

`pollAndUpdate(forceRedraw, force)` is an async function; its suspension
while `readBatteryOnce()` is pending is modelled explicitly: a *busy
window* applies any number of re-entrant trigger calls to a state whose
`pollInFlight` is true, and `pollComplete` then models the rest of the
function (status commit, flag release, and the single re-triggered forced
poll when `pendingForcedRefresh` was set).  The re-triggered call is
expanded one level: its own completion sees `pendingForcedRefresh = false`
because nothing sets it during that call in this model, so the recursion
bottoms out exactly as in the source.  `polls` counts `readBatteryOnce`
invocations and `renders` counts `renderAllKeys` invocations. -/

structure SchedState where
  pollInFlight : Bool
  pendingForcedRefresh : Bool
  latestStatus : Status
  keysCount : Nat
  polls : Nat
  renders : Nat
deriving DecidableEq

/-- Status built from a completed read: `Value{percent}` on success,
`Error{"error", message}` on failure. -/
def buildStatus : Except String Int → Status
  | Except.ok v => Status.value v (toString v ++ "%")
  | Except.error msg => Status.error "error" msg

/-- The change-detection commit: update the cache and render when the new
status differs from the cached one or a forced redraw was requested. -/
def commitStatus (forceRedraw : Bool) (outcome : Except String Int) (s : SchedState) : SchedState :=
  let status := buildStatus outcome
  if !statusesEqual status s.latestStatus || forceRedraw then
    { s with latestStatus := status, renders := s.renders + 1 }
  else s

/-- Completion of an in-flight poll (the part of `pollAndUpdate` after
`readBatteryOnce` settles): commit the status, clear `pollInFlight`, and if
a forced refresh became pending during the window, clear it and run one
re-triggered forced poll (`pollAndUpdate(true, false)`), whose own result
is `next`. -/
def pollComplete (forceRedraw : Bool) (outcome next : Except String Int) (s : SchedState) : SchedState :=
  let s2 := commitStatus forceRedraw outcome s
  let s3 := { s2 with pollInFlight := false }
  if s3.pendingForcedRefresh then
    let s4 := { s3 with pendingForcedRefresh := false }
    if s4.keysCount = 0 then s4
    else
      let s5 := { s4 with pollInFlight := true, polls := s4.polls + 1 }
      let s6 := commitStatus true next s5
      { s6 with pollInFlight := false }
  else s3

/-- A full `pollAndUpdate(forceRedraw, force)` call: while a poll is in
flight a forced call records `pendingForcedRefresh` and returns, a plain
tick is dropped; with no consumers nothing happens; otherwise the poll
runs to completion with outcome `outcome` (and `next` for the one possible
re-triggered poll). -/
def pollAndUpdateRun (forceRedraw force : Bool) (outcome next : Except String Int)
    (s : SchedState) : SchedState :=
  if s.pollInFlight then
    if force then { s with pendingForcedRefresh := true } else s
  else if s.keysCount = 0 then s
  else pollComplete forceRedraw outcome next { s with pollInFlight := true, polls := s.polls + 1 }

/-- All trigger calls that arrive while one poll is in flight, in order;
each element is that call's `force` flag. -/
def busyWindow (triggers : List Bool) (outcome next : Except String Int) (s : SchedState) : SchedState :=
  triggers.foldl (fun st f => pollAndUpdateRun f f outcome next st) s

/-! ## Interval management (plugin.js lines 493-498 and 621-648) -/

def MIN_POLL_INTERVAL_MS : Int := 5000

/-- plugin.js `getPollIntervalMs`:
`Math.max(MIN_POLL_INTERVAL_MS, Math.round(pollIntervalSeconds * 1000))`. -/
def getPollIntervalMs (pollIntervalSeconds : ℚ) : Int :=
  max MIN_POLL_INTERVAL_MS (jsRound (jsMul pollIntervalSeconds 1000))

/-- The interval timer: whether one is running and the interval it was
started with (module variable `pollIntervalMs`). -/
structure TimerState where
  running : Bool
  pollIntervalMs : Int
deriving DecidableEq

/-- Outcome of `ensurePolling`: the new timer state, whether a new timer
was started (after cancelling any old one), and whether an immediate
forced-redraw poll (`pollAndUpdate(true)`) was issued. -/
structure EnsureResult where
  timer : TimerState
  restarted : Bool
  immediatePoll : Bool
deriving DecidableEq

/-- plugin.js `ensurePolling`: stop with no consumers; leave a running
timer alone when the desired interval is unchanged; otherwise cancel any
old timer, start a new one at the desired interval and issue one immediate
forced poll. -/
def ensurePolling (keysCount : Nat) (pollIntervalSeconds : ℚ) (t : TimerState) : EnsureResult :=
  if keysCount = 0 then ⟨{ t with running := false }, false, false⟩
  else
    let desired := getPollIntervalMs pollIntervalSeconds
    if t.running ∧ t.pollIntervalMs = desired then ⟨t, false, false⟩
    else ⟨⟨true, desired⟩, true, true⟩

/-- plugin.js `plugin.config.updated` handler (lines 654-665), restricted
to its interval-management effect: the handler assigns
`pollIntervalMs = getPollIntervalMs(pluginConfig)` BEFORE calling
`ensurePolling` (both success and failure paths of `loadInitialConfig`,
lines 464-487, follow the same assign-then-ensure pattern), so the
interval comparison inside `ensurePolling` reads the already-updated
module variable, not the interval the running timer was started with. -/
def configUpdated (keysCount : Nat) (pollIntervalSeconds : ℚ) (t : TimerState) : EnsureResult :=
  ensurePolling keysCount pollIntervalSeconds
    { t with pollIntervalMs := getPollIntervalMs pollIntervalSeconds }

/-! ## Concrete example inputs (used by witness theorems) -/

/-- A well-formed 65-byte feature report with id 0xF7 and battery byte 57. -/
def exData57 : List Nat := 0xf7 :: 0 :: 0 :: 57 :: List.replicate 61 0

def exFault57 : AttemptFault :=
  ⟨Except.ok (), Except.ok (), Except.ok (some exData57), false⟩

/-- A report whose battery byte is out of range (250). -/
def exFault250 : AttemptFault :=
  ⟨Except.ok (), Except.ok (), Except.ok (some [0xf7, 0, 0, 250]), false⟩

/-- The device fails to open. -/
def exFaultBusy : AttemptFault :=
  ⟨Except.error "busy", Except.ok (), Except.ok none, false⟩

/-- A 3-byte report with a wrong id: triggers the validation failure. -/
def exFaultShort : AttemptFault :=
  ⟨Except.ok (), Except.ok (), Except.ok (some [1, 2, 3]), false⟩

/-- A pinned-path config with retryCount 3 and initDelayMs 50. -/
def exCfg : BatteryConfig :=
  ⟨some "COM3", RawValue.nullv, RawValue.nullv, some (JSNum.num 50), some (JSNum.num 3)⟩

/-- A config violating the documented preconditions: absent initDelayMs and
a fractional negative retryCount (-5/2). -/
def exCfgWeird : BatteryConfig :=
  ⟨some "COM3", RawValue.nullv, RawValue.nullv, none, some (JSNum.num (Rat.divInt (-5) 2))⟩

/-- First attempt fails to open, every later attempt succeeds with 57. -/
def exWorldFS : World :=
  ⟨Except.ok [], fun i => if i = 1 then exFaultBusy else exFault57⟩

/-- Every attempt fails to open, with an attempt-identifying message. -/
def exWorldAF : World :=
  ⟨Except.ok [],
   fun i => ⟨Except.error (if i = 3 then "third" else "earlier"), Except.ok (), Except.ok none, false⟩⟩

def exDev1 : DeviceInfo := ⟨0x3151, 0x5007, some "p1", none, none⟩

def exDev2 : DeviceInfo := ⟨0x3151, 0x5007, some "PathMI_02x", none, none⟩

def exDev3 : DeviceInfo := ⟨0x3151, 0x5007, some "p3", some 2, none⟩

/-- A scheduler state with a poll in flight, nothing pending, one consumer,
five polls performed so far. -/
def exSchedBusy : SchedState := ⟨true, false, Status.unknown "waiting", 1, 5, 0⟩

/-- The initial scheduler state (idle, status unknown, one consumer). -/
def exSchedIdle : SchedState := ⟨false, false, Status.unknown "waiting", 1, 0, 0⟩

/-! ## Helper lemmas about the retry loop -/

theorem runAttempts_ok (faults : Nat → AttemptFault) (rem a : Nat) (last : Option ReadError)
    (v : Nat) (h : (attemptOnce (faults a) a).result = Except.ok v) :
    runAttempts faults (rem + 1) a last = ⟨Except.ok v, 1⟩ := by
  simp [runAttempts, h]

theorem runAttempts_fail (faults : Nat → AttemptFault) (rem a : Nat) (last : Option ReadError)
    (e : ReadError) (h : (attemptOnce (faults a) a).result = Except.error e) :
    runAttempts faults (rem + 1) a last =
      ⟨(runAttempts faults rem (a + 1) (some e)).result,
       (runAttempts faults rem (a + 1) (some e)).attempts + 1⟩ := by
  simp [runAttempts, h]

theorem runAttempts_first_success (faults : Nat → AttemptFault) (v : Nat) :
    ∀ k rem a : Nat, ∀ last : Option ReadError, k < rem →
    (∀ j, j < k → ∃ e, (attemptOnce (faults (a + j)) (a + j)).result = Except.error e) →
    (attemptOnce (faults (a + k)) (a + k)).result = Except.ok v →
    runAttempts faults rem a last = ⟨Except.ok v, k + 1⟩ := by
  intro k
  induction k with
  | zero =>
    intro rem a last hlt _ hok
    cases rem with
    | zero => omega
    | succ r =>
      simp only [Nat.add_zero] at hok
      exact runAttempts_ok faults r a last v hok
  | succ k ih =>
    intro rem a last hlt hfail hok
    cases rem with
    | zero => omega
    | succ r =>
      obtain ⟨e, he⟩ := hfail 0 (Nat.succ_pos k)
      simp only [Nat.add_zero] at he
      rw [runAttempts_fail faults r a last e he]
      have hrec := ih r (a + 1) (some e) (by omega)
        (fun j hj => by
          have hj1 := hfail (j + 1) (by omega)
          simpa [show a + (j + 1) = a + 1 + j from by omega] using hj1)
        (by simpa [show a + (k + 1) = a + 1 + k from by omega] using hok)
      rw [hrec]

theorem runAttempts_all_fail (faults : Nat → AttemptFault) (errs : Nat → ReadError) :
    ∀ m a : Nat, ∀ last : Option ReadError,
    (∀ j, j ≤ m → (attemptOnce (faults (a + j)) (a + j)).result = Except.error (errs (a + j))) →
    runAttempts faults (m + 1) a last = ⟨Except.error (errs (a + m)), m + 1⟩ := by
  intro m
  induction m with
  | zero =>
    intro a last h
    have h0 := h 0 (le_refl 0)
    simp only [Nat.add_zero] at h0 ⊢
    rw [runAttempts_fail faults 0 a last _ h0]
    simp [runAttempts]
  | succ m ih =>
    intro a last h
    have h0 := h 0 (by omega)
    simp only [Nat.add_zero] at h0
    rw [runAttempts_fail faults (m + 1) a last _ h0]
    have hrec := ih (a + 1) (some (errs a)) (fun j hj => by
      have hj1 := h (j + 1) (by omega)
      simpa [show a + (j + 1) = a + 1 + j from by omega] using hj1)
    rw [hrec]
    simp [show a + 1 + m = a + (m + 1) from by omega]

theorem runAttempts_attempts_pos (faults : Nat → AttemptFault) (rem a : Nat)
    (last : Option ReadError) (h : 0 < rem) :
    1 ≤ (runAttempts faults rem a last).attempts := by
  cases rem with
  | zero => omega
  | succ r =>
    cases hres : (attemptOnce (faults a) a).result with
    | ok v => rw [runAttempts_ok faults r a last v hres]
    | error e =>
      rw [runAttempts_fail faults r a last e hres]
      simp

theorem normRetryCount_toNat_pos (c : BatteryConfig) : 1 ≤ (normRetryCount c).toNat := by
  have h : (1 : Int) ≤ normRetryCount c := le_max_left _ _
  omega

/-! ## Helper lemmas about the scheduler -/

theorem commitStatus_polls (fr : Bool) (o : Except String Int) (s : SchedState) :
    (commitStatus fr o s).polls = s.polls := by
  simp only [commitStatus]
  split <;> rfl

theorem commitStatus_pending (fr : Bool) (o : Except String Int) (s : SchedState) :
    (commitStatus fr o s).pendingForcedRefresh = s.pendingForcedRefresh := by
  simp only [commitStatus]
  split <;> rfl

theorem commitStatus_keys (fr : Bool) (o : Except String Int) (s : SchedState) :
    (commitStatus fr o s).keysCount = s.keysCount := by
  simp only [commitStatus]
  split <;> rfl

theorem commitStatus_inFlight (fr : Bool) (o : Except String Int) (s : SchedState) :
    (commitStatus fr o s).pollInFlight = s.pollInFlight := by
  simp only [commitStatus]
  split <;> rfl

/-- While a poll is in flight, a batch of re-entrant `pollAndUpdate` calls
only ORs the `force` flags into `pendingForcedRefresh`; nothing else in the
state changes and no poll starts. -/
theorem busyWindow_eq (outcome next : Except String Int) :
    ∀ (triggers : List Bool) (s : SchedState), s.pollInFlight = true →
    busyWindow triggers outcome next s =
      { s with pendingForcedRefresh := s.pendingForcedRefresh || triggers.any id } := by
  intro triggers
  induction triggers with
  | nil => intro s h; simp [busyWindow]
  | cons f t ih =>
    intro s h
    have hstep : busyWindow (f :: t) outcome next s
        = busyWindow t outcome next (pollAndUpdateRun f f outcome next s) := by
      simp [busyWindow]
    have hrun : pollAndUpdateRun f f outcome next s
        = if f then { s with pendingForcedRefresh := true } else s := by
      simp [pollAndUpdateRun, h]
    rw [hstep, hrun]
    cases f with
    | false =>
      rw [if_neg (by simp)]
      rw [ih s h]
      simp
    | true =>
      rw [if_pos rfl]
      rw [ih { s with pendingForcedRefresh := true } h]
      simp

theorem pollComplete_polls (fr : Bool) (o n : Except String Int) (s : SchedState)
    (hk : s.keysCount ≠ 0) :
    (pollComplete fr o n s).polls = s.polls + (if s.pendingForcedRefresh then 1 else 0) := by
  simp only [pollComplete]
  cases hp : s.pendingForcedRefresh with
  | false => simp [commitStatus_pending, hp, commitStatus_polls]
  | true => simp [commitStatus_pending, hp, commitStatus_polls, commitStatus_keys, hk]

theorem pollComplete_pending (fr : Bool) (o n : Except String Int) (s : SchedState) :
    (pollComplete fr o n s).pendingForcedRefresh = false := by
  simp only [pollComplete]
  cases hp : s.pendingForcedRefresh with
  | false => simp [commitStatus_pending, hp]
  | true =>
    cases hk : s.keysCount with
    | zero => simp [commitStatus_pending, hp, commitStatus_keys, hk]
    | succ k => simp [commitStatus_pending, hp, commitStatus_keys, hk]

theorem pollComplete_inFlight (fr : Bool) (o n : Except String Int) (s : SchedState) :
    (pollComplete fr o n s).pollInFlight = false := by
  simp only [pollComplete]
  cases hp : s.pendingForcedRefresh with
  | false => simp [commitStatus_pending, hp]
  | true =>
    cases hk : s.keysCount with
    | zero => simp [commitStatus_pending, hp, commitStatus_keys, hk]
    | succ k => simp [commitStatus_pending, hp, commitStatus_keys, hk]

/-! ## Generic helpers -/

theorem beqSwap {α : Type} [BEq α] [LawfulBEq α] (a b : α) : (a == b) = (b == a) := by
  by_cases h : a = b
  · subst h; rfl
  · have h1 : (a == b) = false := by
      cases hb : a == b
      · rfl
      · exact absurd (eq_of_beq hb) h
    have h2 : (b == a) = false := by
      cases hb : b == a
      · rfl
      · exact absurd (eq_of_beq hb).symm h
    rw [h1, h2]

theorem matchEntry_some {vid pid : Int} {info : DeviceInfo} {m : DeviceInfo × String}
    (h : matchEntry vid pid info = some m) :
    m.1 = info ∧ info.vendorId = vid ∧ info.productId = pid ∧
      normalisePath info.path = some m.2 := by
  unfold matchEntry at h
  split at h
  case isTrue hcond =>
    rcases Option.map_eq_some'.mp h with ⟨p, hp, hmp⟩
    simp only [Bool.and_eq_true, beq_iff_eq] at hcond
    cases hmp
    exact ⟨rfl, hcond.1, hcond.2, hp⟩
  case isFalse hcond => cases h

/-! ## Claim theorems -/

/-- C1: for any config whose normalised retryCount is N, if fewer than N
consecutive attempts fail and the next attempt succeeds with value v, then
`readBatteryPercentage` returns exactly that value and performs exactly the
attempts up to and including the first success — none after it. -/
theorem readBatteryPercentage_first_success (w : World) (c : BatteryConfig)
    (p : String) (N k v : Nat)
    (hres : resolveTarget w c = Except.ok p)
    (hN : (normRetryCount c).toNat = N)
    (hk : k < N)
    (hfail : ∀ i, 1 ≤ i → i ≤ k → ∃ e, (attemptOnce (w.faults i) i).result = Except.error e)
    (hok : (attemptOnce (w.faults (k + 1)) (k + 1)).result = Except.ok v) :
    readBatteryPercentage w c = ⟨Except.ok v, k + 1⟩ := by
  simp only [readBatteryPercentage, hres, hN]
  exact runAttempts_first_success w.faults v k N 1 none hk
    (fun j hj => by
      have hj1 := hfail (1 + j) (by omega) (by omega)
      simpa using hj1)
    (by simpa [show 1 + k = k + 1 from by omega] using hok)

/-- Witness for C1: with a pinned path, retryCount 3, the first attempt
failing to open and the second succeeding with 57, the read returns 57
after exactly 2 attempts. -/
theorem readBatteryPercentage_first_success_witness :
    readBatteryPercentage exWorldFS exCfg = ⟨Except.ok 57, 2⟩ :=
  readBatteryPercentage_first_success exWorldFS exCfg "COM3" 3 1 57
    (by decide) (by decide) (by decide)
    (fun i h1 h2 => by
      have hi : i = 1 := by omega
      subst hi
      exact ⟨ReadError.openError "busy", by decide⟩)
    (by decide)

/-- C2: if every one of the N sequential attempts fails, the read fails
with exactly the error recorded by the last (N-th) attempt — earlier
errors are overwritten — and N attempts are performed. -/
theorem readBatteryPercentage_all_fail (w : World) (c : BatteryConfig)
    (p : String) (N : Nat) (errs : Nat → ReadError)
    (hres : resolveTarget w c = Except.ok p)
    (hN : (normRetryCount c).toNat = N)
    (hfail : ∀ i, 1 ≤ i → i ≤ N →
      (attemptOnce (w.faults i) i).result = Except.error (errs i)) :
    readBatteryPercentage w c = ⟨Except.error (errs N), N⟩ := by
  have hpos : 1 ≤ N := hN ▸ normRetryCount_toNat_pos c
  obtain ⟨M, rfl⟩ : ∃ M, N = M + 1 := ⟨N - 1, by omega⟩
  simp only [readBatteryPercentage, hres, hN]
  have hall := runAttempts_all_fail w.faults errs M 1 none (fun j hj => by
    exact hfail (1 + j) (by omega) (by omega))
  rw [hall]
  simp [show 1 + M = M + 1 from by omega]

/-- Witness for C2: three attempts all failing to open, the last with a
distinguishable message; the read fails with the last attempt's error. -/
theorem readBatteryPercentage_all_fail_witness :
    readBatteryPercentage exWorldAF exCfg =
      ⟨Except.error (ReadError.openError "third"), 3⟩ :=
  readBatteryPercentage_all_fail exWorldAF exCfg "COM3" 3
    (fun i => ReadError.openError (if i = 3 then "third" else "earlier"))
    (by decide) (by decide) (fun i h1 h2 => rfl)

/-- C10: `readBatteryPercentage` normalises retryCount to
`max(1, trunc(retryCount || 1))` and initDelayMs to
`max(0, trunc(initDelayMs || 0))` for every config — including ones that
violate the documented preconditions — so the retry count is at least 1
(hence at least one attempt is performed whenever the path resolves) and
the delay is a non-negative integer. -/
theorem config_normalisation :
    (∀ c : BatteryConfig,
      normRetryCount c = max 1 (jsTrunc (jsNumOr c.retryCount 1)) ∧
      normInitDelayMs c = max 0 (jsTrunc (jsNumOr c.initDelayMs 0)) ∧
      1 ≤ normRetryCount c ∧ 0 ≤ normInitDelayMs c) ∧
    (∀ (w : World) (c : BatteryConfig) (p : String),
      resolveTarget w c = Except.ok p → 1 ≤ (readBatteryPercentage w c).attempts) := by
  refine ⟨fun c => ⟨rfl, rfl, le_max_left _ _, le_max_left _ _⟩, ?_⟩
  intro w c p hres
  simp only [readBatteryPercentage, hres]
  refine runAttempts_attempts_pos w.faults _ 1 none ?_
  have h := normRetryCount_toNat_pos c
  omega

/-- Witness for C10: a config with fractional negative retryCount (-5/2)
and missing initDelayMs still yields retryCount 1, delay 0, and performs
an attempt. -/
theorem config_normalisation_witness :
    normRetryCount exCfgWeird = 1 ∧ normInitDelayMs exCfgWeird = 0 ∧
    1 ≤ (readBatteryPercentage exWorldAF exCfgWeird).attempts := by
  refine ⟨?_, ?_, config_normalisation.2 exWorldAF exCfgWeird "COM3" (by decide)⟩
  · rw [(config_normalisation.1 exCfgWeird).1]; decide
  · rw [(config_normalisation.1 exCfgWeird).2.1]; decide

/-- C3: device location filters enumerated interfaces to exact VID/PID
matches (with a usable path), then selects in priority order: an
interface-2 candidate, else a candidate whose lower-cased path contains
"mi_02", else the first match in enumeration order; with no match the read
fails with a device-not-found error carrying the vendor and product id. -/
theorem findDevicePath_selection (devices : List DeviceInfo) (vid pid : Int) :
    (∀ m ∈ deviceMatches devices vid pid,
        m.1 ∈ devices ∧ m.1.vendorId = vid ∧ m.1.productId = pid ∧
        normalisePath m.1.path = some m.2) ∧
    (deviceMatches devices vid pid = [] → findDevicePath devices vid pid = none) ∧
    (∀ m, (deviceMatches devices vid pid).find? (fun x => ifaceOf x.1 == some 2) = some m →
        findDevicePath devices vid pid = some m.2 ∧ ifaceOf m.1 = some 2) ∧
    ((deviceMatches devices vid pid).find? (fun x => ifaceOf x.1 == some 2) = none →
      ∀ m, (deviceMatches devices vid pid).find?
          (fun x => strContains (jsToLower x.2) "mi_02") = some m →
        findDevicePath devices vid pid = some m.2 ∧
        strContains (jsToLower m.2) "mi_02" = true) ∧
    ((deviceMatches devices vid pid).find? (fun x => ifaceOf x.1 == some 2) = none →
      (deviceMatches devices vid pid).find?
          (fun x => strContains (jsToLower x.2) "mi_02") = none →
      findDevicePath devices vid pid =
        (deviceMatches devices vid pid).head?.map (fun m => m.2)) ∧
    (∀ (w : World) (c : BatteryConfig) (devs : List DeviceInfo),
      jsTrim (c.hidPath.getD "") = "" → w.enumerate = Except.ok devs →
      findDevicePath devs (targetVidOf c) (targetPidOf c) = none →
      readBatteryPercentage w c =
        ⟨Except.error (ReadError.deviceNotFound (targetVidOf c) (targetPidOf c)), 0⟩) := by
  refine ⟨?_, ?_, ?_, ?_, ?_, ?_⟩
  · intro m hm
    rcases List.mem_filterMap.mp hm with ⟨info, hinfo, hentry⟩
    rcases matchEntry_some hentry with ⟨h1, h2, h3, h4⟩
    exact ⟨h1 ▸ hinfo, h1 ▸ h2, h1 ▸ h3, h1 ▸ h4⟩
  · intro h
    simp [findDevicePath, h]
  · intro m hfind
    have hmem := List.mem_of_find?_eq_some hfind
    have hne : deviceMatches devices vid pid ≠ [] := List.ne_nil_of_mem hmem
    have hpred := List.find?_some hfind
    refine ⟨?_, by simpa [beq_iff_eq] using hpred⟩
    simp only [findDevicePath]
    rw [if_neg (by simpa [List.isEmpty_iff] using hne), hfind]
  · intro hnone m hfind
    have hmem := List.mem_of_find?_eq_some hfind
    have hne : deviceMatches devices vid pid ≠ [] := List.ne_nil_of_mem hmem
    have hpred := List.find?_some hfind
    refine ⟨?_, hpred⟩
    simp only [findDevicePath]
    rw [if_neg (by simpa [List.isEmpty_iff] using hne), hnone, hfind]
  · intro h1 h2
    by_cases hE : deviceMatches devices vid pid = []
    · simp [findDevicePath, hE]
    · simp only [findDevicePath]
      rw [if_neg (by simpa [List.isEmpty_iff] using hE), h1, h2]
  · intro w c devs hpath henum hfind
    simp only [readBatteryPercentage, resolveTarget, hpath, henum, hfind]
    simp

/-- Witness for C3: among three matching candidates the interface-2 one is
selected ahead of an "mi_02" path and the first match. -/
theorem findDevicePath_selection_witness :
    findDevicePath [exDev1, exDev2, exDev3] 0x3151 0x5007 = some "p3" :=
  ((findDevicePath_selection [exDev1, exDev2, exDev3] 0x3151 0x5007).2.2.1
    (exDev3, "p3") (by decide)).1

/-- C4: a feature report that is absent, shorter than 4 bytes, or whose
first byte is not 0xF7 makes the attempt fail (not crash) with a
`ParseError` carrying the hex-encoded raw payload ("null" when absent),
and that failing attempt consumes exactly one iteration of the retry
loop. -/
theorem parse_error_single_attempt (f : AttemptFault) (a : Nat)
    (dataOpt : Option (List Nat))
    (ho : f.openDev = Except.ok ()) (hs : f.sendInit = Except.ok ())
    (hg : f.getReport = Except.ok dataOpt)
    (hbad : dataOpt = none ∨ ∃ data, dataOpt = some data ∧
        (data.length < 4 ∨ data.headD 0 ≠ ANGRY_MIAO_REPORT_ID)) :
    (attemptOnce f a).result = Except.error (ReadError.parseError (payloadHex dataOpt)) ∧
    (∀ (faults : Nat → AttemptFault) (rem : Nat) (last : Option ReadError),
      faults a = f →
      runAttempts faults (rem + 1) a last =
        ⟨(runAttempts faults rem (a + 1)
            (some (ReadError.parseError (payloadHex dataOpt)))).result,
         (runAttempts faults rem (a + 1)
            (some (ReadError.parseError (payloadHex dataOpt)))).attempts + 1⟩) := by
  have hres : (attemptOnce f a).result
      = Except.error (ReadError.parseError (payloadHex dataOpt)) := by
    rcases hbad with hnone | ⟨data, hdata, hviol⟩
    · subst hnone
      simp [attemptOnce, ho, hs, hg]
    · subst hdata
      simp only [attemptOnce, ho, hs, hg]
      rw [if_pos hviol]
  refine ⟨hres, fun faults rem last hfa => ?_⟩
  exact runAttempts_fail faults rem a last _ (by rw [hfa]; exact hres)

/-- Witness for C4: a 3-byte report with a wrong id yields a ParseError
with the payload hex-encoded as "010203". -/
theorem parse_error_single_attempt_witness :
    (attemptOnce exFaultShort 1).result =
      Except.error (ReadError.parseError "010203") :=
  (parse_error_single_attempt exFaultShort 1 (some [1, 2, 3]) rfl rfl rfl
    (Or.inr ⟨[1, 2, 3], rfl, by decide⟩)).1

/-- C5: for every valid feature report the returned battery percentage is
`result[3]` clamped to [0, 100] (hence never above 100); concretely a byte
of 57 yields 57 and is committed as `Value{57}`, while an out-of-range
byte of 250 yields 100. -/
theorem clamp_valid_report (f : AttemptFault) (a : Nat) (data : List Nat)
    (ho : f.openDev = Except.ok ()) (hs : f.sendInit = Except.ok ())
    (hg : f.getReport = Except.ok (some data))
    (hlen : 4 ≤ data.length) (hid : data.headD 0 = ANGRY_MIAO_REPORT_ID) :
    (attemptOnce f a).result = Except.ok (min 100 (max 0 (data.getD 3 0))) ∧
    min 100 (max 0 (data.getD 3 0)) ≤ 100 ∧
    (attemptOnce exFault57 1).result = Except.ok 57 ∧
    (attemptOnce exFault250 1).result = Except.ok 100 ∧
    buildStatus (Except.ok 57) = Status.value 57 (toString (57 : Int) ++ "%") ∧
    (commitStatus false (Except.ok 57) exSchedIdle).latestStatus
      = Status.value 57 (toString (57 : Int) ++ "%") := by
  refine ⟨?_, min_le_left _ _, by decide, by decide, rfl, rfl⟩
  simp only [attemptOnce, ho, hs, hg]
  rw [if_neg]
  push_neg
  exact ⟨by omega, hid⟩

/-- Witness for C5: the general clamp conclusion evaluated on the concrete
57-byte report. -/
theorem clamp_valid_report_witness :
    (attemptOnce exFault57 2).result =
      Except.ok (min 100 (max 0 (exData57.getD 3 0))) :=
  (clamp_valid_report exFault57 2 exData57 rfl rfl rfl (by decide) (by decide)).1

/-- C9: on every exit path of a single attempt, if the device was opened
it is closed at least once via the safe-close discipline; whether the
open succeeded is exactly the open outcome; and a throwing `close` is
swallowed — it cannot influence the attempt's observable behaviour. -/
theorem attemptOnce_closes_handle (f : AttemptFault) (a : Nat) :
    ((attemptOnce f a).opened = true → 1 ≤ (attemptOnce f a).closes) ∧
    (attemptOnce f a).opened = exceptOk f.openDev ∧
    (∀ b, attemptOnce { f with closeFails := b } a = attemptOnce f a) := by
  rcases f with ⟨o, si, g, cb⟩
  refine ⟨?_, ?_, fun b => rfl⟩
  · cases o with
    | error m => intro h; simp [attemptOnce] at h
    | ok u =>
      cases si with
      | error m => intro _; norm_num [attemptOnce]
      | ok u2 =>
        cases g with
        | error m => intro _; norm_num [attemptOnce]
        | ok dataOpt =>
          cases dataOpt with
          | none => intro _; norm_num [attemptOnce]
          | some data =>
            intro _
            norm_num [attemptOnce]
            split <;> norm_num
  · cases o with
    | error m => rfl
    | ok u =>
      cases si with
      | error m => rfl
      | ok u2 =>
        cases g with
        | error m => rfl
        | ok dataOpt =>
          cases dataOpt with
          | none => rfl
          | some data =>
            simp only [attemptOnce, exceptOk]
            split <;> rfl

/-- Witness for C9: the successful-return path closes the handle, and
flipping the close outcome changes nothing. -/
theorem attemptOnce_closes_handle_witness :
    1 ≤ (attemptOnce exFault250 1).closes ∧
    attemptOnce { exFault250 with closeFails := true } 1 = attemptOnce exFault250 1 :=
  ⟨(attemptOnce_closes_handle exFault250 1).1 rfl,
   (attemptOnce_closes_handle exFault250 1).2.2 true⟩

/-- C6 counterexample: the claim states an Unknown status is unequal to
everything, but `statusesEqual` evaluates two Unknown statuses as equal. -/
theorem statusesEqual_unknown_unknown :
    statusesEqual (Status.unknown "waiting") (Status.unknown "waiting") = true := rfl

/-- C6 (amended): the dedup equality is reflexive and symmetric; two Value
statuses are equal iff their percentages match; two Error statuses are
equal iff label and detail match; statuses of different kinds are unequal;
but two Unknown statuses always compare equal (rather than Unknown being
unequal to everything). -/
theorem statusesEqual_spec :
    (∀ a, statusesEqual a a = true) ∧
    (∀ a b, statusesEqual a b = statusesEqual b a) ∧
    (∀ v l v' l', statusesEqual (Status.value v l) (Status.value v' l') = true ↔ v = v') ∧
    (∀ l d l' d',
      statusesEqual (Status.error l d) (Status.error l' d') = true ↔ l = l' ∧ d = d') ∧
    (∀ a b, a.kind ≠ b.kind → statusesEqual a b = false) ∧
    (∀ l l', statusesEqual (Status.unknown l) (Status.unknown l') = true) := by
  refine ⟨?_, ?_, ?_, ?_, ?_, fun l l' => rfl⟩
  · intro a
    cases a <;> simp [statusesEqual]
  · intro a b
    cases a with
    | unknown l => cases b <;> rfl
    | value v l =>
      cases b with
      | unknown l' => rfl
      | value v' l' => simp only [statusesEqual]; exact beqSwap v v'
      | error l' d' => rfl
    | error l d =>
      cases b with
      | unknown l' => rfl
      | value v' l' => rfl
      | error l' d' => simp only [statusesEqual]; rw [beqSwap l l', beqSwap d d']
  · intro v l v' l'
    simp [statusesEqual]
  · intro l d l' d'
    simp [statusesEqual]
  · intro a b h
    cases a <;> cases b <;> first | (exact absurd rfl h) | rfl

/-- Witness for C6: concrete unequal pairs of each flavour required by the
spec examples. -/
theorem statusesEqual_spec_witness :
    statusesEqual (Status.value 5 "5%") (Status.value 6 "6%") = false ∧
    statusesEqual (Status.error "x" "a") (Status.error "x" "b") = false ∧
    statusesEqual (Status.unknown "waiting") (Status.value 5 "5%") = false := by
  refine ⟨?_, ?_,
    statusesEqual_spec.2.2.2.2.1 (Status.unknown "waiting") (Status.value 5 "5%") (by decide)⟩
  · cases hb : statusesEqual (Status.value 5 "5%") (Status.value 6 "6%")
    · rfl
    · exact absurd ((statusesEqual_spec.2.2.1 5 "5%" 6 "6%").mp hb) (by decide)
  · cases hb : statusesEqual (Status.error "x" "a") (Status.error "x" "b")
    · rfl
    · exact absurd ((statusesEqual_spec.2.2.2.1 "x" "a" "x" "b").mp hb) (by simp)

/-- C7: while a poll is in flight, any number of forced-refresh requests
sets `pendingForcedRefresh` (a single flag) and changes nothing else;
plain ticks are dropped outright; on completion, exactly one extra poll
runs iff some forced request arrived, with the flag cleared. -/
theorem pollAndUpdate_forced_refresh (s : SchedState) (triggers : List Bool) (fr : Bool)
    (outcome next : Except String Int)
    (hin : s.pollInFlight = true) (hpend : s.pendingForcedRefresh = false)
    (hkeys : s.keysCount ≠ 0) :
    (busyWindow triggers outcome next s).pendingForcedRefresh = triggers.any id ∧
    (busyWindow triggers outcome next s).polls = s.polls ∧
    (triggers.any id = false → busyWindow triggers outcome next s = s) ∧
    (pollComplete fr outcome next (busyWindow triggers outcome next s)).polls
      = s.polls + (if triggers.any id then 1 else 0) ∧
    (pollComplete fr outcome next (busyWindow triggers outcome next s)).pendingForcedRefresh
      = false ∧
    (pollComplete fr outcome next (busyWindow triggers outcome next s)).pollInFlight
      = false := by
  have hb : busyWindow triggers outcome next s
      = { s with pendingForcedRefresh := triggers.any id } := by
    rw [busyWindow_eq outcome next triggers s hin, hpend]
    simp
  refine ⟨by rw [hb], by rw [hb], ?_, ?_, by rw [hb, pollComplete_pending],
    by rw [hb, pollComplete_inFlight]⟩
  · intro h
    rw [hb, h]
    rw [← hpend]
  · rw [hb, pollComplete_polls fr outcome next _ (by simpa using hkeys)]

/-- Witness for C7: with a poll in flight and triggers tick, forced,
forced, completion runs exactly one extra poll and clears the flag. -/
theorem pollAndUpdate_forced_refresh_witness :
    (pollComplete false (Except.error "x") (Except.ok 42)
        (busyWindow [false, true, true] (Except.error "x") (Except.ok 42) exSchedBusy)).polls
      = exSchedBusy.polls + 1 ∧
    (pollComplete false (Except.error "x") (Except.ok 42)
        (busyWindow [false, true, true] (Except.error "x") (Except.ok 42) exSchedBusy)).pendingForcedRefresh
      = false := by
  have h := pollAndUpdate_forced_refresh exSchedBusy [false, true, true] false
    (Except.error "x") (Except.ok 42) rfl rfl (by decide)
  exact ⟨h.2.2.2.1, h.2.2.2.2.1⟩

/-- The interval the code computes rounds seconds*1000 with Math.round: at
6.0001 s it yields 6000 ms, which differs from the unrounded
max(5000, s*1000) = 6000.1 — a secondary discrepancy noted alongside the
config-change bug below. -/
theorem getPollIntervalMs_rounds :
    ((getPollIntervalMs (Rat.divInt 60001 10000) : Int) : ℚ)
      ≠ max 5000 (Rat.divInt 60001 10000 * 1000) := by
  have h : getPollIntervalMs (Rat.divInt 60001 10000) = 6000 := by decide
  rw [h, Rat.divInt_eq_div]
  norm_num

/-- C8: the claim (with the spec's testable property) says a config change
whose desired interval differs from the running timer's interval cancels
the timer, restarts it at the new interval, and issues one immediate
forced poll.  The code does not: the config-update handler (and
`loadInitialConfig`) overwrite the module variable `pollIntervalMs` with
the new desired value before `ensurePolling` runs, so the
unchanged-interval gate `pollTimer && pollIntervalMs === desiredInterval`
always fires while a timer is running — for EVERY new interval the old
timer is left running at its old rate, nothing is restarted, and no
immediate forced poll is issued. -/
theorem configUpdated_never_restarts (k : Nat) (q : ℚ) (t : TimerState)
    (hk : k ≠ 0) (hr : t.running = true) :
    configUpdated k q t = ⟨⟨true, getPollIntervalMs q⟩, false, false⟩ := by
  rcases t with ⟨r, ms⟩
  simp only at hr
  subst hr
  simp [configUpdated, ensurePolling, hk]

/-- Witness for C8's failing input: the spec's 30 to 10 scenario — a
running 30000 ms timer, one consumer, config changed to 10 s — leaves the
timer running, restarts nothing and issues no immediate poll. -/
theorem configUpdated_never_restarts_witness :
    configUpdated 1 10 ⟨true, 30000⟩ = ⟨⟨true, 10000⟩, false, false⟩ :=
  configUpdated_never_restarts 1 10 ⟨true, 30000⟩ (by decide) rfl

end AMBattery
